import Mathlib

/-!
Verification of the azure-data-lake-store-python core against its
natural-language specification.

The definitions below are shallow embeddings of the repository's source:

* `should_retry`       — azure/datalake/store/retry.py, `ExponentialRetryPolicy.should_retry`
* `scatter_offsets`,
  `scatter_chunks`     — adlfs/transfer.py, `ADLTransferClient._scatter`
* `ends`, `dl_call`    — azure/datalake/store/lib.py, `DatalakeRESTInterface.ends` / `.call`
* `process_response`   — azure/datalake/store/lib.py, `.call` status handling
* `put_data_with_retry`— azure/datalake/store/core.py, `_put_data_with_retry`
* `fetch_range`        — azure/datalake/store/core.py, `_fetch_range`
* `exists_fs`          — azure/datalake/store/core.py, `AzureDLFileSystem.exists`
* `pieceLimit`, `flushLoop`, `adl_write`
                       — azure/datalake/store/core.py, `AzureDLFile.write` / `.flush`
* `invalidate_cache`, `mv_cache`
                       — azure/datalake/store/core.py, `AzureDLFileSystem.invalidate_cache` / `.mv`

Machine integers in the Python source are unbounded (Python ints), so Nat/Int
model them exactly.
-/

/-! ## Retry policy (retry.py, ExponentialRetryPolicy.should_retry)

The Python method reads `response.status_code` only when `last_exception is None`;
we model the pair (response, last_exception) as a Bool flag plus the status code.
The sleeping back-off is irrelevant to the decision and is not modelled. -/

def should_retry (maxRetries : Nat) (lastException : Bool) (statusCode : Nat)
    (retryCount : Nat) : Bool :=
  -- if retry_count >= self.max_retries: return False
  if maxRetries ≤ retryCount then false
  -- if last_exception is not None: backoff; return True
  else if lastException = true then true
  -- 501 / 505 / (300 <= s < 500 and s not in {401, 408, 429}): return False
  else if statusCode = 501 ∨ statusCode = 505 ∨
      (300 ≤ statusCode ∧ statusCode < 500 ∧ statusCode ≠ 401 ∧
        statusCode ≠ 408 ∧ statusCode ≠ 429) then false
  -- s >= 500 or s in {401, 408, 429, 104}: backoff; return True
  else if 500 ≤ statusCode ∨ statusCode = 401 ∨ statusCode = 408 ∨
      statusCode = 429 ∨ statusCode = 104 then true
  -- 100 <= s < 300: return False
  else if 100 ≤ statusCode ∧ statusCode < 300 then false
  else false

/-! ## Chunk scatter (adlfs/transfer.py, ADLTransferClient._scatter)

`offsets = list(range(0, dic['nbytes'], self._chunksize))`, and every chunk task
is submitted as `transfer(adlfs, src, name, offset, self._chunksize, self._blocksize)`,
i.e. the size handed to the per-chunk transfer function is always `chunksize`.
For `0 < chunksize`, `range(0, n, c)` has `(n + c - 1) / c` elements `k * c`. -/

def scatter_offsets (nbytes chunksize : Nat) : List Nat :=
  (List.range ((nbytes + chunksize - 1) / chunksize)).map (fun k => k * chunksize)

def scatter_chunks (nbytes chunksize : Nat) : List (Nat × Nat) :=
  (scatter_offsets nbytes chunksize).map (fun o => (o, chunksize))

/-! ## REST dispatcher (lib.py, DatalakeRESTInterface)

Parameter values are opaque to the validation logic; we model them as either a
string or an integer. `kwargs` is the keyword-argument dictionary of `call`,
modelled as an association list (Python guarantees distinct keys, but none of
the statements below need that). -/

inductive ParamVal where
  | str (s : String)
  | int (i : Int)
deriving DecidableEq, Repr

structure OpSpec where
  method : String
  required : List String
  allowed : List String
deriving DecidableEq, Repr

/-- The fixed operation table `DatalakeRESTInterface.ends`:
OP maps to (HTTP method, required fields, allowed fields). -/
def ends : String → Option OpSpec := fun op =>
  if op = "APPEND" then some ⟨"post", [], ["append", "offset", "syncFlag", "filesessionid", "leaseid"]⟩
  else if op = "CHECKACCESS" then some ⟨"get", [], ["fsaction"]⟩
  else if op = "CONCAT" then some ⟨"post", ["sources"], ["sources"]⟩
  else if op = "MSCONCAT" then some ⟨"post", [], ["deleteSourceDirectory"]⟩
  else if op = "CREATE" then some ⟨"put", [], ["overwrite", "write", "syncFlag", "filesessionid", "leaseid"]⟩
  else if op = "DELETE" then some ⟨"delete", [], ["recursive"]⟩
  else if op = "GETCONTENTSUMMARY" then some ⟨"get", [], []⟩
  else if op = "GETFILESTATUS" then some ⟨"get", [], []⟩
  else if op = "LISTSTATUS" then some ⟨"get", [], []⟩
  else if op = "MKDIRS" then some ⟨"put", [], []⟩
  else if op = "OPEN" then some ⟨"get", [], ["offset", "length", "read", "filesessionid"]⟩
  else if op = "RENAME" then some ⟨"put", ["destination"], ["destination"]⟩
  else if op = "SETOWNER" then some ⟨"put", [], ["owner", "group"]⟩
  else if op = "SETPERMISSION" then some ⟨"put", [], ["permission"]⟩
  else if op = "SETEXPIRY" then some ⟨"put", ["expiryOption"], ["expiryOption", "expireTime"]⟩
  else if op = "SETACL" then some ⟨"put", ["aclSpec"], ["aclSpec"]⟩
  else if op = "MODIFYACLENTRIES" then some ⟨"put", ["aclSpec"], ["aclSpec"]⟩
  else if op = "REMOVEACLENTRIES" then some ⟨"put", ["aclSpec"], ["aclSpec"]⟩
  else if op = "REMOVEACL" then some ⟨"put", [], []⟩
  else if op = "MSGETACLSTATUS" then some ⟨"get", [], []⟩
  else if op = "REMOVEDEFAULTACL" then some ⟨"put", [], []⟩
  else none

/-- Constructor logic for the API version
(`api_version='2016-11-01'` default; `self.api_version = api_version or None`).
`none` = argument not passed (Python default used), `some none` = None passed,
`some (some s)` = the string s passed; an empty or None value disables the
query parameter. -/
def init_api_version : Option (Option String) → Option String
  | none => some "2016-11-01"
  | some none => none
  | some (some s) => if s = "" then none else some s

/-- What `call` does before (and instead of) touching the network: one of the
three local ValueError sites, or the issuing of the HTTP request with the final
query-parameter list. -/
inductive CallAction where
  | noSuchOp
  | missingParams (missing : List String)
  | extraParams (extra : List String)
  | httpRequest (method : String) (query : List (String × ParamVal))
deriving DecidableEq, Repr

/-- The Python set test `required > keys` (proper superset): every key is
required and some required name is absent. -/
def properSuperset (required keys : List String) : Bool :=
  keys.all (fun k => required.contains k) && required.any (fun r => !(keys.contains r))

/-- Validation and query assembly of `DatalakeRESTInterface.call` (lib.py):
reject unknown op; pop `data` and `stream` from kwargs; `allowed.add('api-version')`;
`if required > keys: ValueError`; `if keys - allowed > set(): ValueError`;
otherwise build `params = {'OP': op}`, add `api-version` when configured, update
with the remaining kwargs, and issue the HTTP request. -/
def dl_call (apiVersion : Option String) (op : String)
    (kwargs : List (String × ParamVal)) : CallAction :=
  match ends op with
  | none => .noSuchOp
  | some spec =>
      let kwargs1 := kwargs.filter (fun kv => kv.1 ≠ "data" ∧ kv.1 ≠ "stream")
      let keys := kwargs1.map Prod.fst
      let allowed := spec.allowed ++ ["api-version"]
      if properSuperset spec.required keys then
        .missingParams (spec.required.filter (fun r => !(keys.contains r)))
      else if keys.any (fun k => !(allowed.contains k)) then
        .extraParams (keys.filter (fun k => !(allowed.contains k)))
      else
        .httpRequest spec.method
          ([("OP", ParamVal.str op)] ++
            (match apiVersion with
             | some v => [("api-version", ParamVal.str v)]
             | none => []) ++ kwargs1)

/-! ## Status handling of `call` and the write/read helpers (lib.py / core.py) -/

/-- Error classes raised by the layers modelled here. `valueError` covers the
local validation errors, `runtimeMaxRetries` the RuntimeError wrapper of
`_put_data_with_retry` / `_fetch_range_with_retry`. -/
inductive DLError where
  | valueError
  | permissionError
  | fileNotFoundError
  | badOffset
  | restException
  | runtimeMaxRetries
deriving DecidableEq, Repr

/-- The parts of an HTTP response that `call` inspects: the status code,
whether the body is JSON, the value of `RemoteException.exception` when the
JSON body carries one, and whether the JSON body has `boolean` set to False. -/
structure HttpResponse where
  statusCode : Nat
  isJson : Bool
  remoteException : Option String
  booleanFalse : Bool
deriving DecidableEq, Repr

/-- Classification a response received by `call` (lib.py lines 385-410):
403 → PermissionError, 404 → FileNotFoundError, other ≥400 → a
DatalakeBadOffsetException when the JSON body carries
`RemoteException.exception == 'BadOffsetException'` and a generic
DatalakeRESTException otherwise; for a non-error status a JSON body whose
`boolean` field is False is an operation failure. -/
def process_response (r : HttpResponse) : Except DLError HttpResponse :=
  if r.statusCode = 403 then .error .permissionError
  else if r.statusCode = 404 then .error .fileNotFoundError
  else if 400 ≤ r.statusCode then
    if r.isJson = true ∧ r.remoteException = some "BadOffsetException" then .error .badOffset
    else .error .restException
  else if r.isJson = true ∧ r.booleanFalse = true then .error .restException
  else .ok r

/-- Exception dispatch of `_put_data_with_retry` (core.py lines 1036-1052)
around the outcome of `_put_data`: PermissionError, FileNotFoundError and
DatalakeBadOffsetException are re-raised via `log_response_and_raise`
unconditionally (there is no attempt-count distinction anywhere in the
function); any other exception is wrapped in the RuntimeError
'Max number of ADL retries exceeded'. -/
def put_data_with_retry (inner : Except DLError HttpResponse) :
    Except DLError HttpResponse :=
  match inner with
  | .ok r => .ok r
  | .error .permissionError => .error .permissionError
  | .error .fileNotFoundError => .error .fileNotFoundError
  | .error .badOffset => .error .badOffset
  | .error _ => .error .runtimeMaxRetries

/-- Result of `AzureDLFileSystem.exists` (core.py lines 440-446), which calls
`info(path, invalidate_cache=True, expected_error_code=404)`; with cache bypass
`info` forwards the service outcome of GETFILESTATUS, so `exists` sees exactly
the classification of `process_response`; it catches FileNotFoundError only. -/
def exists_fs (r : HttpResponse) : Except DLError Bool :=
  match process_response r with
  | .ok _ => .ok true
  | .error .fileNotFoundError => .ok false
  | .error e => .error e

/-- Outcome of `_fetch_range`: either bytes returned locally without a REST
call, or the action taken by `rest.call`. -/
inductive FetchOutcome where
  | localBytes (b : List Nat)
  | action (a : CallAction)
deriving DecidableEq, Repr

/-- Embedding of `_fetch_range` (core.py lines 1011-1016): there is no range
check of any kind; the function always forwards to
`rest.call('OPEN', path, offset=start, length=end-start, read='true',
stream=stream, retry_policy=retry_policy)`. The `retry_policy` keyword lands
in `call`'s kwargs (`call` has no such parameter in this revision and does not
pop it); the value of each parameter is irrelevant to validation and the
object-valued `retry_policy` and boolean `stream` are modelled as strings. -/
def fetch_range (start fin : Int) : FetchOutcome :=
  .action (dl_call (init_api_version none) "OPEN"
    [("offset", ParamVal.int start), ("length", ParamVal.int (fin - start)),
     ("read", ParamVal.str "true"), ("stream", ParamVal.str "False"),
     ("retry_policy", ParamVal.str "ExponentialRetryPolicy")])

/-! ## Write path (core.py, AzureDLFile.write / AzureDLFile.flush)

Bytes are modelled as Nat; the write path never inspects byte values except
through the substring search for the delimiter. -/

/-- The delimiter `d` occurs in window `w` at start index `i`, fully inside the
window — the occurrences searched by Python `bytes.rfind`. -/
def occursAt (d w : List Nat) (i : Nat) : Prop :=
  i + d.length ≤ w.length ∧ (w.drop i).take d.length = d

instance (d w : List Nat) (i : Nat) : Decidable (occursAt d w i) := by
  unfold occursAt
  exact inferInstance

/-- Scan for the greatest start index ≤ n at which the delimiter occurs. -/
def rfindAux (d w : List Nat) : Nat → Option Nat
  | 0 => if occursAt d w 0 then some 0 else none
  | i + 1 => if occursAt d w (i + 1) then some (i + 1) else rfindAux d w i

/-- Python `w.rfind(d)` for nonempty `d`, as an Option: the greatest index at
which `d` occurs in `w` (none when absent, where Python returns -1). -/
def rfind (d w : List Nat) : Option Nat :=
  if d.length ≤ w.length then rfindAux d w (w.length - d.length) else none

/-- One iteration bound of the flush loop (core.py lines 908-916):
`place = data[:blocksize].rfind(delimiter)` when a delimiter is configured
(`if self.delimiter:` — an empty delimiter is falsy), then `limit = blocksize`
when `place < 0` and `limit = place + len(delimiter)` otherwise. -/
def pieceLimit (blocksize : Nat) (delim data : List Nat) : Nat :=
  if delim = [] then blocksize
  else
    match rfind delim (data.take blocksize) with
    | some place => place + delim.length
    | none => blocksize

/-- The `while len(data) > self.blocksize` loop of `flush` (core.py lines
907-940): emit `data[:limit]`, continue with `data[limit:]`. Each iteration
consumes at least one byte whenever `0 < blocksize` (for blocksize 0 the Python
loop would not terminate), so fuel `data.length` makes the structural recursion
exact; `flushLoop` instantiates it. Returns (pieces sent, remaining buffer). -/
def flushLoopF (blocksize : Nat) (delim : List Nat) :
    Nat → List Nat → List (List Nat) × List Nat
  | 0, data => ([], data)
  | fuel + 1, data =>
      if blocksize < data.length ∧ 0 < blocksize then
        let limit := pieceLimit blocksize delim data
        let rest := flushLoopF blocksize delim fuel (data.drop limit)
        (data.take limit :: rest.1, rest.2)
      else ([], data)

def flushLoop (blocksize : Nat) (delim data : List Nat) : List (List Nat) × List Nat :=
  flushLoopF blocksize delim data.length data

/-- Buffered write-mode state of an AzureDLFile: the unsent buffer and `loc`
(total bytes accepted from the caller). -/
structure WState where
  buffer : List Nat
  loc : Nat
deriving DecidableEq, Repr

/-- `AzureDLFile.write(data)` (core.py lines 845-865) together with the
non-forced `flush(syncFlag='DATA')` it invokes on every call: append to the
buffer, advance `loc` by the return value of `buffer.write` (= len(data)), run
the flush loop, retain the remainder as the new buffer. Returns
(new state, pieces sent on the wire, the value returned by `write`). -/
def adl_write (blocksize : Nat) (delim : List Nat) (s : WState) (data : List Nat) :
    WState × List (List Nat) × Nat :=
  let buf := s.buffer ++ data
  let fl := flushLoop blocksize delim buf
  (⟨fl.2, s.loc + data.length⟩, fl.1, data.length)

/-! ## Directory-listing cache (core.py, AzureDLFileSystem) -/

/-- AzureDLPath, reduced to what `invalidate_cache` uses: the anchor flag and
the normalized segments. `trim` drops the anchor (`relative_to(anchor)`),
`parentPath` is pathlib's `.parent` (drop the last segment; the parent of a
root or of '.' is itself), and `asPosix` renders the cache-key string exactly
as `as_posix()` does ('.' for an empty relative path). -/
structure ADLPath where
  absolute : Bool
  segments : List String
deriving DecidableEq, Repr

def trim (p : ADLPath) : ADLPath := ⟨false, p.segments⟩

def parentPath (p : ADLPath) : ADLPath := ⟨p.absolute, p.segments.dropLast⟩

def asPosix (p : ADLPath) : String :=
  if p.absolute then "/" ++ String.intercalate "/" p.segments
  else if p.segments = [] then "." else String.intercalate "/" p.segments

/-- The directory-listing cache `self.dirs`: path key → cached listing. -/
def DirCache : Type := String → Option (List String)

/-- `AzureDLFileSystem.invalidate_cache(path)` (core.py lines 563-571): `None`
clears the whole cache; otherwise pop the trimmed path's key and the key of its
parent (`dict.pop` with a default: absent keys are ignored). -/
def invalidate_cache (dirs : DirCache) (p : Option ADLPath) : DirCache :=
  match p with
  | none => fun _ => none
  | some p0 =>
      let key := asPosix (trim p0)
      let parentKey := asPosix (trim (parentPath (trim p0)))
      fun k => if k = key ∨ k = parentKey then none else dirs k

/-- Cache effect of `AzureDLFileSystem.mv` (core.py lines 502-509): RENAME,
then `invalidate_cache` on both endpoints (each trimmed on entry). -/
def mv_cache (dirs : DirCache) (p1 p2 : ADLPath) : DirCache :=
  invalidate_cache (invalidate_cache dirs (some (trim p1))) (some (trim p2))

/-- A concrete little cache used by a witness below. -/
def dirs0 : DirCache := fun k =>
  if k = "x" then some ["x/e"] else none

/-- Claim C3: while retry budget remains, `should_retry` retries on a transport
exception and on HTTP 401, 408, 429 and every 5xx except 501 and 505, and does
not retry on any 2xx, any 3xx, nor on 400, 403, 404, 501, 505. -/
theorem C3_should_retry_decision (m s c : Nat) (h : c < m) :
    should_retry m true s c = true ∧
    ((s = 401 ∨ s = 408 ∨ s = 429 ∨ (500 ≤ s ∧ s ≤ 599 ∧ s ≠ 501 ∧ s ≠ 505)) →
      should_retry m false s c = true) ∧
    (((200 ≤ s ∧ s ≤ 299) ∨ (300 ≤ s ∧ s ≤ 399) ∨ s = 400 ∨ s = 403 ∨ s = 404 ∨
        s = 501 ∨ s = 505) →
      should_retry m false s c = false) := by
  have hm : ¬ m ≤ c := by omega
  refine ⟨by simp [should_retry, hm], ?_, ?_⟩
  · intro hs
    simp only [should_retry, if_neg hm]
    rw [if_neg (by simp : ¬ (false = true))]
    split_ifs <;> first | rfl | (exfalso; omega)
  · intro hs
    simp only [should_retry, if_neg hm]
    rw [if_neg (by simp : ¬ (false = true))]
    split_ifs <;> first | rfl | (exfalso; omega)

/-- Witness for `C3_should_retry_decision` at concrete inputs: budget 0 < 4,
a transport exception retries, 503 retries, 404 does not. -/
theorem C3_should_retry_decision_witness :
    (0 : Nat) < 4 ∧ should_retry 4 true 200 0 = true ∧
      should_retry 4 false 503 0 = true ∧ should_retry 4 false 404 0 = false :=
  ⟨by decide, (C3_should_retry_decision 4 200 0 (by decide)).1,
    (C3_should_retry_decision 4 503 0 (by decide)).2.1 (by omega),
    (C3_should_retry_decision 4 404 0 (by decide)).2.2 (by omega)⟩

/-- Claim C2, counterexample: for a submitted file of length 5 with chunksize 2,
the sizes handed to the per-chunk transfer function are [2, 2, 2]; they sum to
6, not to the file length 5. -/
theorem C2_counterexample :
    ((scatter_chunks 5 2).map Prod.snd).sum ≠ 5 := by decide

/-- Claim C2, amended: the chunk offsets are exactly the multiples of the
chunksize strictly below the file length, but the size handed to the per-chunk
transfer function is always exactly the chunksize, so the sizes sum to
`chunksize * ceil(length / chunksize)`, which equals the length only when the
chunksize divides it (or the length is 0). -/
theorem C2_scatter_chunks_spec (L C : Nat) (hC : 0 < C) :
    (∀ o : Nat, o ∈ scatter_offsets L C ↔ (C ∣ o ∧ o < L)) ∧
    ((scatter_chunks L C).map Prod.snd).sum = C * ((L + C - 1) / C) ∧
    (scatter_chunks L C).map Prod.fst = scatter_offsets L C := by
  refine ⟨?_, ?_, ?_⟩
  · intro o
    constructor
    · intro ho
      simp only [scatter_offsets, List.mem_map, List.mem_range] at ho
      obtain ⟨k, hk, rfl⟩ := ho
      refine ⟨⟨k, by ring⟩, ?_⟩
      have h1 : k + 1 ≤ (L + C - 1) / C := hk
      have h2 : (k + 1) * C ≤ L + C - 1 := (Nat.le_div_iff_mul_le hC).mp h1
      have h3 : k * C + C ≤ L + C - 1 := by
        calc k * C + C = (k + 1) * C := by ring
        _ ≤ L + C - 1 := h2
      omega
    · rintro ⟨⟨k, rfl⟩, hlt⟩
      simp only [scatter_offsets, List.mem_map, List.mem_range]
      refine ⟨k, ?_, by ring⟩
      have h3 : C * k + C ≤ L + C - 1 := by omega
      have h2 : (k + 1) * C ≤ L + C - 1 := by
        calc (k + 1) * C = C * k + C := by ring
        _ ≤ L + C - 1 := h3
      exact (Nat.le_div_iff_mul_le hC).mpr h2
  · simp only [scatter_chunks, List.map_map]
    have hconst : ((scatter_offsets L C).map ((fun p => Prod.snd p) ∘ fun o => (o, C)))
        = (scatter_offsets L C).map (fun _ => C) := rfl
    rw [hconst, List.map_const']
    simp [scatter_offsets, List.sum_replicate, Nat.mul_comm]
  · simp only [scatter_chunks, List.map_map]
    exact List.map_id' _

/-- Witness for `C2_scatter_chunks_spec` at length 5, chunksize 2: offset 4 is a
chunk offset since 2 divides 4 and 4 < 5. -/
theorem C2_scatter_chunks_spec_witness :
    (0 : Nat) < 2 ∧ ((4 : Nat) ∈ scatter_offsets 5 2 ↔ ((2 : Nat) ∣ 4 ∧ (4 : Nat) < 5)) :=
  ⟨by decide, (C2_scatter_chunks_spec 5 2 (by decide)).1 4⟩

/-- Claim C1: the service reporting BadOffsetException on a (retried) append is
never treated as success by `_put_data_with_retry`: `call` raises
DatalakeBadOffsetException for a 400 response whose JSON body carries
`RemoteException.exception == 'BadOffsetException'`, and
`_put_data_with_retry` re-raises it unconditionally — it has no attempt
counter and no treat-as-success branch, contradicting the claim (and the
repository's own test_DatalakeBadOffsetExceptionRecovery). -/
theorem C1_badoffset_always_surfaced :
    process_response ⟨400, true, some "BadOffsetException", false⟩ =
      .error DLError.badOffset ∧
    put_data_with_retry (process_response ⟨400, true, some "BadOffsetException", false⟩) =
      .error DLError.badOffset := by
  constructor <;> rfl

/-- Claim C6: a required parameter of SETEXPIRY (`expiryOption`) is missing,
yet `call` raises no validation error and issues the HTTP request: the check
`required > keys` is a proper-superset test, which is false as soon as some
supplied key (here the allowed optional `expireTime`) is outside the required
set, contradicting the claim (and the code's own error message
'Required parameters missing'). -/
theorem C6_missing_required_not_rejected :
    ends "SETEXPIRY" = some ⟨"put", ["expiryOption"], ["expiryOption", "expireTime"]⟩ ∧
    dl_call (init_api_version none) "SETEXPIRY" [("expireTime", ParamVal.str "0")] =
      .httpRequest "put"
        [("OP", ParamVal.str "SETEXPIRY"), ("api-version", ParamVal.str "2016-11-01"),
         ("expireTime", ParamVal.str "0")] := by
  constructor <;> rfl

/-- Claim C7, counterexample: on a 403 service response `info` raises
PermissionError and `exists` propagates it — `exists` does raise, refuting
"never raises an exception to its caller regardless of the service response
status". -/
theorem C7_counterexample :
    exists_fs ⟨403, false, none, false⟩ = .error DLError.permissionError := by
  rfl

/-- Claim C7, amended: `exists` returns true when `info` succeeds, false when
`info` raises FileNotFoundError, and propagates every other exception (for
example PermissionError on 403) — it swallows only the not-found case. -/
theorem C7_exists_spec (r : HttpResponse) :
    (∀ x, process_response r = .ok x → exists_fs r = .ok true) ∧
    (process_response r = .error DLError.fileNotFoundError → exists_fs r = .ok false) ∧
    (∀ e, e ≠ DLError.fileNotFoundError → process_response r = .error e →
      exists_fs r = .error e) := by
  refine ⟨?_, ?_, ?_⟩
  · intro x hx
    simp [exists_fs, hx]
  · intro hx
    simp [exists_fs, hx]
  · intro e he hx
    cases e <;> simp_all [exists_fs]

/-- Witness for `C7_exists_spec`: on a 404 response `exists` returns false. -/
theorem C7_exists_spec_witness :
    exists_fs ⟨404, false, none, false⟩ = .ok false :=
  (C7_exists_spec ⟨404, false, none, false⟩).2.1 (by rfl)

/-- Claim C8, counterexample: for the zero-length range start=1, end=0,
`_fetch_range` does not return empty bytes: it forwards to `call('OPEN', ...)`,
which in this revision rejects the forwarded `retry_policy` keyword as an extra
parameter (a ValueError) before any HTTP request. -/
theorem C8_counterexample :
    fetch_range 1 0 = .action (.extraParams ["retry_policy"]) ∧
    fetch_range 1 0 ≠ .localBytes [] := by
  refine ⟨rfl, by decide⟩

/-- Claim C8, amended: `_fetch_range` has no `end ≤ start` guard and never
returns bytes locally; for every range it forwards to `call('OPEN', offset,
length=end-start, ...)`, and in this revision that call raises a ValueError
(extra parameter `retry_policy`) before any HTTP request is issued. -/
theorem C8_fetch_range_always_calls (start fin : Int) :
    fetch_range start fin = .action (.extraParams ["retry_policy"]) := rfl

/-- Claim C9, amended: unless overridden, the dispatcher's API version is
2016-11-01, and every issued request's query carries
`api-version=2016-11-01`. -/
theorem C9_api_version_param (op : String) (kwargs : List (String × ParamVal))
    (m : String) (q : List (String × ParamVal))
    (h : dl_call (init_api_version none) op kwargs = .httpRequest m q) :
    ("api-version", ParamVal.str "2016-11-01") ∈ q := by
  unfold dl_call at h
  cases hE : ends op with
  | none =>
      rw [hE] at h
      exact absurd h (by simp)
  | some spec =>
      rw [hE] at h
      simp only [init_api_version] at h
      split at h
      · exact absurd h (by simp)
      · split at h
        · exact absurd h (by simp)
        · injection h with hm2 hq2
          rw [← hq2]
          simp

/-- Claim C9, counterexample: the default-constructed dispatcher sends
`api-version=2016-11-01`, not `2018-09-01`. -/
theorem C9_counterexample :
    dl_call (init_api_version none) "GETFILESTATUS" [] =
      .httpRequest "get"
        [("OP", ParamVal.str "GETFILESTATUS"), ("api-version", ParamVal.str "2016-11-01")] ∧
    ("api-version", ParamVal.str "2018-09-01") ∉
      [("OP", ParamVal.str "GETFILESTATUS"), ("api-version", ParamVal.str "2016-11-01")] := by
  refine ⟨rfl, ?_⟩
  decide

/-- Witness for `C9_api_version_param` on a default GETFILESTATUS request. -/
theorem C9_api_version_param_witness :
    ("api-version", ParamVal.str "2016-11-01") ∈
      [("OP", ParamVal.str "GETFILESTATUS"), ("api-version", ParamVal.str "2016-11-01")] :=
  C9_api_version_param "GETFILESTATUS" [] "get" _ rfl

/-- Helper: a hit returned by `rfindAux` is an occurrence within the scanned
range. -/
theorem rfindAux_some (d w : List Nat) :
    ∀ n j, rfindAux d w n = some j → occursAt d w j ∧ j ≤ n := by
  intro n
  induction n with
  | zero =>
      intro j h
      by_cases hc : occursAt d w 0
      · simp only [rfindAux, if_pos hc] at h
        injection h with h0
        subst h0
        exact ⟨hc, le_refl _⟩
      · simp only [rfindAux, if_neg hc] at h
        exact Option.noConfusion h
  | succ i ih =>
      intro j h
      by_cases hc : occursAt d w (i + 1)
      · simp only [rfindAux, if_pos hc] at h
        injection h with h0
        subst h0
        exact ⟨hc, le_refl _⟩
      · simp only [rfindAux, if_neg hc] at h
        obtain ⟨h1, h2⟩ := ih j h
        exact ⟨h1, Nat.le_succ_of_le h2⟩

/-- Helper: `rfindAux` returns the greatest occurrence within the scanned
range. -/
theorem rfindAux_max (d w : List Nat) :
    ∀ n j i, rfindAux d w n = some j → occursAt d w i → i ≤ n → i ≤ j := by
  intro n
  induction n with
  | zero =>
      intro j i _ _ hin
      omega
  | succ n ih =>
      intro j i h hi hin
      by_cases hc : occursAt d w (n + 1)
      · simp only [rfindAux, if_pos hc] at h
        injection h with h0
        subst h0
        exact hin
      · simp only [rfindAux, if_neg hc] at h
        by_cases he : i = n + 1
        · subst he
          exact absurd hi hc
        · exact ih j i h hi (by omega)

/-- Helper: when `rfindAux` misses, there is no occurrence within the scanned
range. -/
theorem rfindAux_none (d w : List Nat) :
    ∀ n, rfindAux d w n = none → ∀ i, i ≤ n → ¬ occursAt d w i := by
  intro n
  induction n with
  | zero =>
      intro h i hi
      have h0 : i = 0 := by omega
      subst h0
      by_cases hc : occursAt d w 0
      · simp only [rfindAux, if_pos hc] at h
        exact Option.noConfusion h
      · exact hc
  | succ n ih =>
      intro h i hi
      by_cases hc : occursAt d w (n + 1)
      · simp only [rfindAux, if_pos hc] at h
        exact Option.noConfusion h
      · by_cases he : i = n + 1
        · subst he
          exact hc
        · simp only [rfindAux, if_neg hc] at h
          exact ih h i (by omega)

/-- Helper: `rfind` returns the last occurrence of the delimiter. -/
theorem rfind_some_spec (d w : List Nat) (j : Nat) (h : rfind d w = some j) :
    occursAt d w j ∧ ∀ i, occursAt d w i → i ≤ j := by
  unfold rfind at h
  split_ifs at h with hlen
  obtain ⟨h1, _⟩ := rfindAux_some d w _ j h
  refine ⟨h1, fun i hi => ?_⟩
  have ha := hi.1
  exact rfindAux_max d w _ j i h hi (by omega)

/-- Helper: when `rfind` misses, the delimiter occurs nowhere in the window. -/
theorem rfind_none_spec (d w : List Nat) (h : rfind d w = none) :
    ∀ i, ¬ occursAt d w i := by
  intro i hi
  have ha := hi.1
  unfold rfind at h
  split_ifs at h with hlen
  · exact rfindAux_none d w _ h i (by omega) hi
  · exact hlen (by omega)

/-- Helper: the flush loop removes at least one byte per iteration when the
blocksize is positive. -/
theorem pieceLimit_pos (blocksize : Nat) (delim data : List Nat) (hb : 0 < blocksize) :
    0 < pieceLimit blocksize delim data := by
  unfold pieceLimit
  split_ifs with hd
  · exact hb
  · cases hr : rfind delim (data.take blocksize) with
    | none => exact hb
    | some place =>
        have hdl : 0 < delim.length := List.length_pos.mpr hd
        show 0 < place + delim.length
        omega

/-- Helper: every flush piece bound is at most the blocksize. -/
theorem pieceLimit_le (blocksize : Nat) (delim data : List Nat) :
    pieceLimit blocksize delim data ≤ blocksize := by
  unfold pieceLimit
  split_ifs with hd
  · exact le_refl _
  · cases hr : rfind delim (data.take blocksize) with
    | none => exact le_refl _
    | some place =>
        have ha := ((rfind_some_spec delim (data.take blocksize) place hr).1).1
        have hlt : (data.take blocksize).length = min blocksize data.length :=
          List.length_take _ _
        show place + delim.length ≤ blocksize
        omega

/-- Helper: full characterization of the flush loop on sufficient fuel —
pieces and remainder concatenate back to the input, the remainder fits in one
block, and each piece is at most blocksize bytes. -/
theorem flushLoopF_spec (blocksize : Nat) (delim : List Nat) (hb : 0 < blocksize) :
    ∀ fuel data, data.length ≤ fuel →
      (flushLoopF blocksize delim fuel data).1.flatten ++
        (flushLoopF blocksize delim fuel data).2 = data ∧
      (flushLoopF blocksize delim fuel data).2.length ≤ blocksize ∧
      ∀ p ∈ (flushLoopF blocksize delim fuel data).1, p.length ≤ blocksize := by
  intro fuel
  induction fuel with
  | zero =>
      intro data hle
      have h0 : data = [] := List.length_eq_zero.mp (Nat.le_zero.mp hle)
      subst h0
      simp [flushLoopF]
  | succ fuel ih =>
      intro data hle
      by_cases hg : blocksize < data.length ∧ 0 < blocksize
      · have hlim := pieceLimit_pos blocksize delim data hb
        have hlimle := pieceLimit_le blocksize delim data
        have hdrop : (data.drop (pieceLimit blocksize delim data)).length ≤ fuel := by
          simp only [List.length_drop]
          omega
        obtain ⟨ih1, ih2, ih3⟩ := ih (data.drop (pieceLimit blocksize delim data)) hdrop
        simp only [flushLoopF, if_pos hg]
        refine ⟨?_, ih2, ?_⟩
        · rw [List.flatten_cons, List.append_assoc, ih1, List.take_append_drop]
        · intro p hp
          rcases List.mem_cons.mp hp with hEq | hp2
          · subst hEq
            have hlt : (data.take (pieceLimit blocksize delim data)).length =
                min (pieceLimit blocksize delim data) data.length := List.length_take _ _
            omega
          · exact ih3 p hp2
      · simp only [flushLoopF, if_neg hg]
        have hnl : ¬ blocksize < data.length := fun hA => hg ⟨hA, hb⟩
        exact ⟨by simp, by omega, by simp⟩

/-- Helper: `flushLoop` instance of `flushLoopF_spec`. -/
theorem flushLoop_spec (blocksize : Nat) (delim data : List Nat) (hb : 0 < blocksize) :
    (flushLoop blocksize delim data).1.flatten ++ (flushLoop blocksize delim data).2 = data ∧
    (flushLoop blocksize delim data).2.length ≤ blocksize ∧
    ∀ p ∈ (flushLoop blocksize delim data).1, p.length ≤ blocksize :=
  flushLoopF_spec blocksize delim hb data.length data (le_refl _)

/-- Claim C4, counterexample: with blocksize 2, writing exactly 2 bytes into an
empty write handle leaves 2 = blocksize bytes in the buffer — the flush loop
runs only while the buffer strictly exceeds blocksize, so the retained unsent
buffer is not strictly smaller than blocksize after the write returns. -/
theorem C4_counterexample :
    ¬ ((adl_write 2 [] ⟨[], 0⟩ [0, 1]).1.buffer.length < 2) := by decide

/-- Claim C4, amended: `write(data)` appends data to the buffer, returns and
advances `loc` by len(data), and invokes `flush(syncFlag='DATA')`, which sends
pieces while the buffer strictly exceeds blocksize; the bytes sent plus the
retained buffer are exactly the previous buffer plus the written data, and the
retained buffer holds at most blocksize bytes (exactly blocksize is
possible). -/
theorem C4_write_spec (blocksize : Nat) (delim : List Nat) (s : WState)
    (data : List Nat) (hb : 0 < blocksize) :
    (adl_write blocksize delim s data).2.2 = data.length ∧
    (adl_write blocksize delim s data).1.loc = s.loc + data.length ∧
    (adl_write blocksize delim s data).2.1.flatten ++
      (adl_write blocksize delim s data).1.buffer = s.buffer ++ data ∧
    (adl_write blocksize delim s data).1.buffer.length ≤ blocksize := by
  obtain ⟨h1, h2, _⟩ := flushLoop_spec blocksize delim (s.buffer ++ data) hb
  exact ⟨rfl, rfl, h1, h2⟩

/-- Witness for `C4_write_spec`: writing 3 bytes with blocksize 2 into an empty
handle. -/
theorem C4_write_spec_witness :
    (adl_write 2 [] ⟨[], 0⟩ [0, 1, 2]).2.2 = 3 ∧
    (adl_write 2 [] ⟨[], 0⟩ [0, 1, 2]).1.loc = 3 ∧
    (adl_write 2 [] ⟨[], 0⟩ [0, 1, 2]).2.1.flatten ++
      (adl_write 2 [] ⟨[], 0⟩ [0, 1, 2]).1.buffer = [0, 1, 2] ∧
    (adl_write 2 [] ⟨[], 0⟩ [0, 1, 2]).1.buffer.length ≤ 2 :=
  C4_write_spec 2 [] ⟨[], 0⟩ [0, 1, 2] (by decide)

/-- Claim C5: with a configured (nonempty) delimiter and a buffer longer than
blocksize, the first piece emitted by the flush loop is `data[:limit]`, where
`limit` ends exactly at the last occurrence of the delimiter inside the next
blocksize buffered bytes (delimiter included), or is exactly blocksize when
that window contains no delimiter; hence — and for all later pieces too —
every emitted piece is at most blocksize bytes. -/
theorem C5_flush_delimiter_pieces (blocksize : Nat) (delim data : List Nat)
    (hb : 0 < blocksize) (hd : delim ≠ []) (hlen : blocksize < data.length) :
    pieceLimit blocksize delim data ≤ blocksize ∧
    (flushLoop blocksize delim data).1.head? =
      some (data.take (pieceLimit blocksize delim data)) ∧
    (match rfind delim (data.take blocksize) with
     | some place =>
         pieceLimit blocksize delim data = place + delim.length ∧
         occursAt delim (data.take blocksize) place ∧
         (∀ j, occursAt delim (data.take blocksize) j → j ≤ place) ∧
         (data.take (pieceLimit blocksize delim data)).drop place = delim
     | none =>
         (∀ j, ¬ occursAt delim (data.take blocksize) j) ∧
         pieceLimit blocksize delim data = blocksize) ∧
    ∀ p ∈ (flushLoop blocksize delim data).1, p.length ≤ blocksize := by
  refine ⟨pieceLimit_le blocksize delim data, ?_, ?_,
    (flushLoop_spec blocksize delim data hb).2.2⟩
  · obtain ⟨m, hm⟩ : ∃ m, data.length = m + 1 := ⟨data.length - 1, by omega⟩
    unfold flushLoop
    rw [hm]
    have hg : blocksize < data.length ∧ 0 < blocksize := ⟨hlen, hb⟩
    simp only [flushLoopF, if_pos hg]
    rfl
  · cases hr : rfind delim (data.take blocksize) with
    | some place =>
        obtain ⟨hocc, hmax⟩ := rfind_some_spec delim (data.take blocksize) place hr
        have hla : place + delim.length ≤ (data.take blocksize).length := hocc.1
        have hlt : (data.take blocksize).length = min blocksize data.length :=
          List.length_take _ _
        have hpb : place + delim.length ≤ blocksize := by omega
        have hpl : pieceLimit blocksize delim data = place + delim.length := by
          unfold pieceLimit
          rw [if_neg hd, hr]
        refine ⟨hpl, hocc, hmax, ?_⟩
        rw [hpl]
        have e1 : (data.take (place + delim.length)).drop place
            = (data.drop place).take delim.length := by
          rw [List.drop_take]
          congr 1
          omega
        rw [e1]
        have e2 := hocc.2
        rw [List.drop_take] at e2
        rw [List.take_take] at e2
        have hmin : min delim.length (blocksize - place) = delim.length := by omega
        rw [hmin] at e2
        exact e2
    | none =>
        refine ⟨rfind_none_spec delim (data.take blocksize) hr, ?_⟩
        unfold pieceLimit
        rw [if_neg hd, hr]

/-- Witness for `C5_flush_delimiter_pieces` on the spec's own example: bytes
b'123\x0a456\x0a789' with delimiter b'\x0a' and blocksize 6; the first piece
emitted is the buffer up to the computed limit. -/
theorem C5_flush_delimiter_pieces_witness :
    (flushLoop 6 [10] [49, 50, 51, 10, 52, 53, 54, 10, 55, 56, 57]).1.head? =
      some ([49, 50, 51, 10, 52, 53, 54, 10, 55, 56, 57].take
        (pieceLimit 6 [10] [49, 50, 51, 10, 52, 53, 54, 10, 55, 56, 57])) :=
  (C5_flush_delimiter_pieces 6 [10] [49, 50, 51, 10, 52, 53, 54, 10, 55, 56, 57]
    (by decide) (by decide) (by decide)).2.1

/-- Claim C10: for a path p, `invalidate_cache(p)` removes exactly the cache
entry for p and the entry for p's parent, leaving every other cached listing
unchanged; with None it clears the whole cache; consequently `mv(p1, p2)`,
which invalidates both endpoints, also drops both targets' parent listings. -/
theorem C10_invalidate_cache_frame (dirs : DirCache) (p p1 p2 : ADLPath) (k : String) :
    invalidate_cache dirs (some p) (asPosix (trim p)) = none ∧
    invalidate_cache dirs (some p) (asPosix (trim (parentPath (trim p)))) = none ∧
    (k ≠ asPosix (trim p) → k ≠ asPosix (trim (parentPath (trim p))) →
      invalidate_cache dirs (some p) k = dirs k) ∧
    invalidate_cache dirs none k = none ∧
    mv_cache dirs p1 p2 (asPosix (trim (parentPath (trim p1)))) = none ∧
    mv_cache dirs p1 p2 (asPosix (trim (parentPath (trim p2)))) = none := by
  refine ⟨?_, ?_, ?_, rfl, ?_, ?_⟩
  · simp [invalidate_cache]
  · simp [invalidate_cache]
  · intro h1 h2
    simp [invalidate_cache, h1, h2]
  · simp only [mv_cache, invalidate_cache]
    split_ifs with h1 h2
    · rfl
    · rfl
    · exact absurd (Or.inr rfl) h2
  · simp only [mv_cache, invalidate_cache]
    split_ifs with h1 h2
    · rfl
    · rfl
    · exact absurd (Or.inr rfl) h1

/-- Witness for `C10_invalidate_cache_frame`: invalidating /a/b leaves the
unrelated cached listing for key x untouched. -/
theorem C10_invalidate_cache_frame_witness :
    invalidate_cache dirs0 (some ⟨true, ["a", "b"]⟩) "x" = dirs0 "x" :=
  (C10_invalidate_cache_frame dirs0 ⟨true, ["a", "b"]⟩ ⟨true, ["a", "b"]⟩
    ⟨true, ["a", "b"]⟩ "x").2.2.1 (by decide) (by decide)
